import Mathlib

/-!
Shallow embedding of the user-service HTTP application (src/app.js).

The service keeps an in-memory list of user records together with a
next-identifier counter, exposes CRUD handlers over it, and best-effort
publishes a creation event to a NATS bus.  Request bodies are modelled as
optional JSON string fields, path `:id` segments as raw strings fed to a
model of ECMAScript `parseInt`, and the NATS handle as an `Option Unit`
(`null` vs a live connection).  The side-effect order inside a handler
(bus publish vs writing the HTTP response) is modelled as an explicit
trace of effects, and the SIGTERM callback as a trace of shutdown actions.
-/

namespace UserService

/-- A stored user record, as built by the create and update handlers. -/
structure User where
  id : Nat
  name : String
  email : String
  createdAt : String
  updatedAt : Option String
deriving Repr, DecidableEq

/-- The module-level mutable state of app.js: the `users` array and the
`nextId` counter. -/
structure Store where
  users : List User
  nextId : Nat
deriving Repr, DecidableEq

/-- Initial state: `let users = []; let nextId = 1;`. -/
def Store.init : Store := ⟨[], 1⟩

/-- The ids currently held in the store, in array order. -/
def Store.ids (s : Store) : List Nat := s.users.map (fun u => u.id)

/-- JSON response bodies produced by the handlers. -/
inductive Body where
  | user : User → Body
  | userList : List User → Nat → Body
  | error : String → Body
  | empty : Body
  | ready : String → Bool → Body
deriving Repr, DecidableEq

/-- JavaScript truthiness of an optional string body field:
`undefined` and the empty string are falsy, every other string truthy. -/
def jsTruthy : Option String → Bool
  | none => false
  | some s => !(s == "")

/-- JavaScript `v || dflt` for an optional string field `v`:
yields `dflt` when `v` is absent or empty, otherwise the string itself. -/
def jsOr (v : Option String) (dflt : String) : String :=
  match v with
  | none => dflt
  | some s => if s == "" then dflt else s

/-- The string carried by a truthy field (only used under truthiness). -/
def jsGet (v : Option String) : String := v.getD ""

/-- Accumulate the leading decimal digits of a character list; `none`
when no digit has been seen, mirroring `parseInt` returning `NaN`. -/
def parseDecDigits : List Char → Nat → Bool → Option Nat
  | [], acc, seen => if seen then some acc else none
  | c :: rest, acc, seen =>
    if c.isDigit then parseDecDigits rest (acc * 10 + (c.toNat - '0'.toNat)) true
    else if seen then some acc else none

/-- Hexadecimal digit test used by `parseInt` after a `0x` prefix. -/
def isHexDigitChar (c : Char) : Bool :=
  c.isDigit || ('a' ≤ c && c ≤ 'f') || ('A' ≤ c && c ≤ 'F')

/-- Numeric value of a hexadecimal digit character. -/
def hexVal (c : Char) : Nat :=
  if c.isDigit then c.toNat - '0'.toNat
  else if 'a' ≤ c && c ≤ 'f' then c.toNat - 'a'.toNat + 10
  else c.toNat - 'A'.toNat + 10

/-- Accumulate the leading hexadecimal digits of a character list. -/
def parseHexDigits : List Char → Nat → Bool → Option Nat
  | [], acc, seen => if seen then some acc else none
  | c :: rest, acc, seen =>
    if isHexDigitChar c then parseHexDigits rest (acc * 16 + hexVal c) true
    else if seen then some acc else none

/-- Unsigned part of ECMAScript `parseInt` with no radix argument:
an optional `0x`/`0X` prefix selects base 16, otherwise base 10. -/
def parseIntUnsigned (cs : List Char) : Option Nat :=
  match cs with
  | '0' :: c :: rest =>
    if c == 'x' || c == 'X' then parseHexDigits rest 0 false
    else parseDecDigits ('0' :: c :: rest) 0 false
  | _ => parseDecDigits cs 0 false

/-- ECMAScript `parseInt(s)` as used on `req.params.id`: skip leading
whitespace, take an optional sign, then the longest digit prefix;
`none` models `NaN`. -/
def parseIntJS (s : String) : Option Int :=
  match s.toList.dropWhile Char.isWhitespace with
  | '-' :: rest => (parseIntUnsigned rest).map (fun n => -(n : Int))
  | '+' :: rest => (parseIntUnsigned rest).map (fun n => (n : Int))
  | cs => (parseIntUnsigned cs).map (fun n => (n : Int))

/-- The predicate `u.id === userId` from the handlers' `find`/`findIndex`
calls, with the parsed id as an integer. -/
def idMatches (n : Int) (u : User) : Bool := (u.id : Int) == n

/-- Modelled from the spec's words, for comparison with the code's
parser: a `:id` segment the spec calls numeric — a nonempty string of
decimal digits. -/
def specNumericSegment (s : String) : Bool :=
  s.toList.all Char.isDigit && !(s == "")

/-- GET /api/users: `res.json({users, count})`. -/
def listUsers (s : Store) : Nat × Body :=
  (200, Body.userList s.users s.users.length)

/-- GET /api/users/:id: parse the segment, `users.find`, 404 when absent. -/
def getUser (s : Store) (idSeg : String) : Nat × Body :=
  match parseIntJS idSeg with
  | none => (404, Body.error "User not found")
  | some n =>
    match s.users.find? (idMatches n) with
    | none => (404, Body.error "User not found")
    | some u => (200, Body.user u)

/-- Side effects of the create handler whose order matters: the NATS
publish (awaited inside the handler) and the write of the HTTP response. -/
inductive Effect where
  | publish : Nat → Effect
  | respond : Nat → Body → Effect
deriving Repr, DecidableEq

/-- Result of the create handler: the new store, the HTTP status and
body, and the ordered trace of publish/respond effects. -/
structure CreateResult where
  store : Store
  status : Nat
  body : Body
  effects : List Effect
deriving Repr, DecidableEq

/-- POST /api/users.  `connected` models `nats !== null`; `pubOk` models
whether the awaited `nats.publish` succeeds (its failure is caught and
only logged).  When the body is invalid the handler returns 400 before
touching the store; otherwise it assigns `nextId++`, stamps `createdAt`
with `now`, appends the record, awaits the publish when connected, and
only then writes the 201 response. -/
def createUser (s : Store) (name email : Option String)
    (connected pubOk : Bool) (now : String) : CreateResult :=
  if !(jsTruthy name) || !(jsTruthy email) then
    { store := s
      status := 400
      body := Body.error "Name and email are required"
      effects := [Effect.respond 400 (Body.error "Name and email are required")] }
  else
    let user : User :=
      { id := s.nextId, name := jsGet name, email := jsGet email
        createdAt := now, updatedAt := none }
    let s' : Store := { users := s.users ++ [user], nextId := s.nextId + 1 }
    let _ := pubOk
    { store := s'
      status := 201
      body := Body.user user
      effects :=
        (if connected then [Effect.publish user.id] else [])
          ++ [Effect.respond 201 (Body.user user)] }

/-- The spread-update performed at `users[userIndex]` by the PUT handler:
`{...old, name: name || old.name, email: email || old.email, updatedAt: now}`. -/
def applyUpdate (name email : Option String) (now : String) (u : User) : User :=
  { u with
    name := jsOr name u.name
    email := jsOr email u.email
    updatedAt := some now }

/-- Replace the first element satisfying `p` by its image under `f`,
mirroring `findIndex` followed by assignment at that index; `none` when
`findIndex` returns -1.  Also yields the replaced element's image, which
the handler sends back. -/
def updateFirst (p : User → Bool) (f : User → User) : List User → Option (List User × User)
  | [] => none
  | u :: rest =>
    if p u then some (f u :: rest, f u)
    else
      match updateFirst p f rest with
      | none => none
      | some (l, v) => some (u :: l, v)

/-- Remove the first element satisfying `p`, mirroring `findIndex`
followed by `splice(index, 1)`; `none` when `findIndex` returns -1. -/
def removeFirst (p : User → Bool) : List User → Option (List User)
  | [] => none
  | u :: rest =>
    if p u then some rest
    else (removeFirst p rest).map (fun l => u :: l)

/-- Result of the update and delete handlers: new store, status, body. -/
structure HandlerResult where
  store : Store
  status : Nat
  body : Body
deriving Repr, DecidableEq

/-- PUT /api/users/:id: parse the segment, `findIndex`, 404 when absent,
otherwise overwrite the entry with the spread-update and return it. -/
def updateUser (s : Store) (idSeg : String) (name email : Option String)
    (now : String) : HandlerResult :=
  match parseIntJS idSeg with
  | none => { store := s, status := 404, body := Body.error "User not found" }
  | some n =>
    match updateFirst (idMatches n) (applyUpdate name email now) s.users with
    | none => { store := s, status := 404, body := Body.error "User not found" }
    | some (l, v) => { store := { s with users := l }, status := 200, body := Body.user v }

/-- DELETE /api/users/:id: parse the segment, `findIndex`, 404 when
absent, otherwise `splice` the entry out and send 204 with no body. -/
def deleteUser (s : Store) (idSeg : String) : HandlerResult :=
  match parseIntJS idSeg with
  | none => { store := s, status := 404, body := Body.error "User not found" }
  | some n =>
    match removeFirst (idMatches n) s.users with
    | none => { store := s, status := 404, body := Body.error "User not found" }
    | some l => { store := { s with users := l }, status := 204, body := Body.empty }

/-- The NATS handle: `null` or a live connection (`let nats = null`). -/
def NatsHandle := Option Unit

/-- `initNATS`: `Client.connect` either succeeds or throws; the `catch`
swallows the error (logging it) and leaves `nats` at `null`.  The total
return type records that the failure never escapes to the caller. -/
def initNATS (outcome : Except String Unit) : Option Unit :=
  match outcome with
  | Except.ok _ => some ()
  | Except.error _ => none

/-- `nats !== null`. -/
def natsConnected (nats : Option Unit) : Bool := nats.isSome

/-- GET /ready: `{status: 'ready', natsConnected: nats !== null}`. -/
def readyHandler (nats : Option Unit) : Nat × Body :=
  (200, Body.ready "ready" (natsConnected nats))

/-- Actions the SIGTERM callback could take, in order. -/
inductive ShutdownAction where
  | stopAccepting : ShutdownAction
  | closeAdapter : ShutdownAction
  | exitCode : Nat → ShutdownAction
deriving Repr, DecidableEq

/-- The SIGTERM callback: `if (nats) await nats.close(); process.exit(0)`.
The returned HTTP server is never captured, so no close/stop-accepting
action appears in the trace. -/
def sigtermHandler (nats : Option Unit) : List ShutdownAction :=
  (if nats.isSome then [ShutdownAction.closeAdapter] else [])
    ++ [ShutdownAction.exitCode 0]

/-- A store-mutating request, for reasoning about operation sequences. -/
inductive Op where
  | create : Option String → Option String → String → Op
  | update : String → Option String → Option String → String → Op
  | del : String → Op
deriving Repr, DecidableEq

/-- The store after one request has been handled. -/
def applyOp (s : Store) : Op → Store
  | Op.create n e now => (createUser s n e false true now).store
  | Op.update seg n e now => (updateUser s seg n e now).store
  | Op.del seg => (deleteUser s seg).store

/-- The store after a sequence of requests. -/
def runOps (s : Store) : List Op → Store
  | [] => s
  | op :: rest => runOps (applyOp s op) rest

/-- The ids responded by the successful (status 201) creates of a
request sequence, in order. -/
def createdIds (s : Store) : List Op → List Nat
  | [] => []
  | op :: rest =>
    match op with
    | Op.create n e now =>
      (if (createUser s n e false true now).status == 201 then
        match (createUser s n e false true now).body with
        | Body.user u => [u.id]
        | _ => []
      else [])
        ++ createdIds (createUser s n e false true now).store rest
    | _ => createdIds (applyOp s op) rest

/-- Well-formedness of a store: ids are pairwise distinct and every
stored id is below the counter.  Holds in every reachable state. -/
def Store.wf (s : Store) : Prop :=
  s.ids.Nodup ∧ ∀ x ∈ s.ids, x < s.nextId

instance (s : Store) : Decidable s.wf := by
  unfold Store.wf; infer_instance

/-- Is this effect the bus publish? -/
def Effect.isPublish : Effect → Bool
  | Effect.publish _ => true
  | _ => false

/-- Is this effect the HTTP response write? -/
def Effect.isRespond : Effect → Bool
  | Effect.respond _ _ => true
  | _ => false

/-- In an effect trace, does the response write wait on a publish, i.e.
does some publish occur strictly before the first response write? -/
def responseWaitsForPublish (tr : List Effect) : Bool :=
  match tr.findIdx? Effect.isPublish, tr.findIdx? Effect.isRespond with
  | some p, some r => p < r
  | _, _ => false

/-! ### Helper lemmas about the find-and-mutate loops -/

theorem idMatches_iff (n : Int) (u : User) : idMatches n u = true ↔ (u.id : Int) = n := by
  simp [idMatches]

theorem updateFirst_eq_none (p : User → Bool) (f : User → User) :
    ∀ l : List User, l.find? p = none → updateFirst p f l = none := by
  intro l h
  induction l with
  | nil => rfl
  | cons u rest ih =>
    by_cases hp : p u
    · simp [List.find?_cons_of_pos _ hp] at h
    · rw [List.find?_cons_of_neg _ hp] at h
      simp [updateFirst, hp, ih h]

theorem updateFirst_eq_some (p : User → Bool) (f : User → User) :
    ∀ (l : List User) (u : User), l.find? p = some u →
      ∃ pre post, l = pre ++ u :: post ∧ (∀ w ∈ pre, p w = false) ∧
        updateFirst p f l = some (pre ++ f u :: post, f u) := by
  intro l
  induction l with
  | nil => intro u h; simp at h
  | cons w rest ih =>
    intro u h
    by_cases hp : p w
    · rw [List.find?_cons_of_pos _ hp] at h
      obtain rfl : w = u := by injection h
      exact ⟨[], rest, rfl, by simp, by simp [updateFirst, hp]⟩
    · rw [List.find?_cons_of_neg _ hp] at h
      obtain ⟨pre, post, hl, hpre, hup⟩ := ih u h
      refine ⟨w :: pre, post, by rw [hl]; rfl, ?_, ?_⟩
      · intro x hx
        rcases List.mem_cons.mp hx with rfl | hx
        · exact Bool.eq_false_iff.mpr hp
        · exact hpre x hx
      · simp [updateFirst, hp, hup]

theorem removeFirst_eq_none (p : User → Bool) :
    ∀ l : List User, l.find? p = none → removeFirst p l = none := by
  intro l h
  induction l with
  | nil => rfl
  | cons u rest ih =>
    by_cases hp : p u
    · simp [List.find?_cons_of_pos _ hp] at h
    · rw [List.find?_cons_of_neg _ hp] at h
      simp [removeFirst, hp, ih h]

theorem removeFirst_eq_some (p : User → Bool) :
    ∀ (l : List User) (u : User), l.find? p = some u →
      ∃ pre post, l = pre ++ u :: post ∧ (∀ w ∈ pre, p w = false) ∧
        removeFirst p l = some (pre ++ post) := by
  intro l
  induction l with
  | nil => intro u h; simp at h
  | cons w rest ih =>
    intro u h
    by_cases hp : p w
    · rw [List.find?_cons_of_pos _ hp] at h
      obtain rfl : w = u := by injection h
      exact ⟨[], rest, rfl, by simp, by simp [removeFirst, hp]⟩
    · rw [List.find?_cons_of_neg _ hp] at h
      obtain ⟨pre, post, hl, hpre, hrm⟩ := ih u h
      refine ⟨w :: pre, post, by rw [hl]; rfl, ?_, ?_⟩
      · intro x hx
        rcases List.mem_cons.mp hx with rfl | hx
        · exact Bool.eq_false_iff.mpr hp
        · exact hpre x hx
      · simp [removeFirst, hp, hrm]

theorem mem_ids_find (s : Store) (k : Nat) (h : k ∈ s.ids) :
    ∃ u, s.users.find? (idMatches (k : Int)) = some u ∧ u.id = k := by
  cases hf : s.users.find? (idMatches (k : Int)) with
  | none =>
    exfalso
    obtain ⟨u, hu, hid⟩ := List.mem_map.mp h
    have := List.find?_eq_none.mp hf u hu
    exact this (by simp [idMatches, hid])
  | some u =>
    refine ⟨u, rfl, ?_⟩
    have := List.find?_some hf
    have h2 := (idMatches_iff _ _).mp this
    exact_mod_cast h2

theorem find_eq_none_of_notMem (s : Store) (k : Nat) (h : k ∉ s.ids) :
    s.users.find? (idMatches (k : Int)) = none := by
  apply List.find?_eq_none.mpr
  intro u hu hmatch
  have := (idMatches_iff _ _).mp hmatch
  exact h (List.mem_map.mpr ⟨u, hu, by exact_mod_cast this⟩)

theorem applyUpdate_id (n e : Option String) (now : String) (u : User) :
    (applyUpdate n e now u).id = u.id := rfl

theorem createUser_valid (s : Store) (n e : Option String) (conn ok : Bool) (now : String)
    (hn : jsTruthy n = true) (he : jsTruthy e = true) :
    createUser s n e conn ok now =
      { store := ⟨s.users ++ [⟨s.nextId, jsGet n, jsGet e, now, none⟩], s.nextId + 1⟩
        status := 201
        body := Body.user ⟨s.nextId, jsGet n, jsGet e, now, none⟩
        effects :=
          (if conn then [Effect.publish s.nextId] else [])
            ++ [Effect.respond 201
                  (Body.user ⟨s.nextId, jsGet n, jsGet e, now, none⟩)] } := by
  simp [createUser, hn, he]

theorem createUser_invalid (s : Store) (n e : Option String) (conn ok : Bool) (now : String)
    (h : jsTruthy n = false ∨ jsTruthy e = false) :
    createUser s n e conn ok now =
      { store := s
        status := 400
        body := Body.error "Name and email are required"
        effects := [Effect.respond 400 (Body.error "Name and email are required")] } := by
  rcases h with h | h <;> simp [createUser, h]

theorem updateUser_store (s : Store) (seg : String) (n e : Option String) (now : String) :
    (updateUser s seg n e now).store.ids = s.ids ∧
      (updateUser s seg n e now).store.nextId = s.nextId := by
  cases hp : parseIntJS seg with
  | none => simp [updateUser, hp]
  | some k =>
    cases hf : s.users.find? (idMatches k) with
    | none =>
      simp [updateUser, hp, updateFirst_eq_none _ _ _ hf]
    | some u =>
      obtain ⟨pre, post, hl, -, hup⟩ :=
        updateFirst_eq_some (idMatches k) (applyUpdate n e now) _ u hf
      simp only [updateUser, hp, hup]
      refine ⟨?_, trivial⟩
      simp [Store.ids, hl, applyUpdate_id]

theorem deleteUser_store (s : Store) (seg : String) :
    (deleteUser s seg).store.ids.Sublist s.ids ∧
      (deleteUser s seg).store.nextId = s.nextId := by
  cases hp : parseIntJS seg with
  | none => simp [deleteUser, hp]
  | some k =>
    cases hf : s.users.find? (idMatches k) with
    | none =>
      simp [deleteUser, hp, removeFirst_eq_none _ _ hf]
    | some u =>
      obtain ⟨pre, post, hl, -, hrm⟩ := removeFirst_eq_some (idMatches k) _ u hf
      simp only [deleteUser, hp, hrm]
      refine ⟨?_, trivial⟩
      show ((pre ++ post).map (fun u => u.id)).Sublist (s.users.map (fun u => u.id))
      rw [hl]
      exact List.Sublist.map _ ((List.sublist_cons_self u post).append_left pre)

theorem wf_append_next (s : Store) (hwf : s.wf) (nm em ca : String) :
    (Store.mk (s.users ++ [⟨s.nextId, nm, em, ca, none⟩]) (s.nextId + 1)).wf := by
  constructor
  · show (List.map (fun u => u.id) (s.users ++ [⟨s.nextId, nm, em, ca, none⟩])).Nodup
    simp only [List.map_append, List.map_cons, List.map_nil]
    rw [List.nodup_append]
    refine ⟨hwf.1, List.nodup_singleton _, ?_⟩
    intro x hx hx'
    have hlt := hwf.2 x hx
    simp at hx'
    omega
  · intro x hx
    show x < s.nextId + 1
    simp only [Store.ids, List.map_append, List.map_cons, List.map_nil,
      List.mem_append, List.mem_cons, List.not_mem_nil, or_false] at hx
    rcases hx with hx | hx
    · exact Nat.lt_succ_of_lt (hwf.2 x hx)
    · omega

theorem wf_applyOp (s : Store) (hwf : s.wf) (op : Op) : (applyOp s op).wf := by
  cases op with
  | create n e now =>
    by_cases hn : jsTruthy n = true
    · by_cases he : jsTruthy e = true
      · show (createUser s n e false true now).store.wf
        rw [createUser_valid s n e false true now hn he]
        exact wf_append_next s hwf _ _ now
      · show (createUser s n e false true now).store.wf
        rw [createUser_invalid s n e false true now (Or.inr (by simpa using he))]
        exact hwf
    · show (createUser s n e false true now).store.wf
      rw [createUser_invalid s n e false true now (Or.inl (by simpa using hn))]
      exact hwf
  | update seg n e now =>
    show (updateUser s seg n e now).store.wf
    obtain ⟨hids, hnext⟩ := updateUser_store s seg n e now
    constructor
    · rw [hids]; exact hwf.1
    · intro x hx; rw [hids] at hx; rw [hnext]; exact hwf.2 x hx
  | del seg =>
    show (deleteUser s seg).store.wf
    obtain ⟨hsub, hnext⟩ := deleteUser_store s seg
    constructor
    · exact hwf.1.sublist hsub
    · intro x hx; rw [hnext]; exact hwf.2 x (hsub.subset hx)

theorem notMem_applyOp (k : Nat) (s : Store) (op : Op)
    (h1 : k ∉ s.ids) (h2 : k < s.nextId) :
    k ∉ (applyOp s op).ids ∧ k < (applyOp s op).nextId := by
  cases op with
  | create n e now =>
    by_cases hn : jsTruthy n = true
    · by_cases he : jsTruthy e = true
      · show k ∉ (createUser s n e false true now).store.ids ∧
          k < (createUser s n e false true now).store.nextId
        rw [createUser_valid s n e false true now hn he]
        constructor
        · show k ∉ List.map (fun u => u.id)
            (s.users ++ [⟨s.nextId, jsGet n, jsGet e, now, none⟩])
          intro hx
          simp only [List.map_append, List.map_cons, List.map_nil,
            List.mem_append, List.mem_cons, List.not_mem_nil, or_false] at hx
          rcases hx with hx | hx
          · exact h1 hx
          · omega
        · exact Nat.lt_succ_of_lt h2
      · show k ∉ (createUser s n e false true now).store.ids ∧
          k < (createUser s n e false true now).store.nextId
        rw [createUser_invalid s n e false true now (Or.inr (by simpa using he))]
        exact ⟨h1, h2⟩
    · show k ∉ (createUser s n e false true now).store.ids ∧
        k < (createUser s n e false true now).store.nextId
      rw [createUser_invalid s n e false true now (Or.inl (by simpa using hn))]
      exact ⟨h1, h2⟩
  | update seg n e now =>
    show k ∉ (updateUser s seg n e now).store.ids ∧
      k < (updateUser s seg n e now).store.nextId
    obtain ⟨hids, hnext⟩ := updateUser_store s seg n e now
    rw [hids, hnext]
    exact ⟨h1, h2⟩
  | del seg =>
    show k ∉ (deleteUser s seg).store.ids ∧ k < (deleteUser s seg).store.nextId
    obtain ⟨hsub, hnext⟩ := deleteUser_store s seg
    rw [hnext]
    exact ⟨fun hx => h1 (hsub.subset hx), h2⟩

theorem notMem_runOps (k : Nat) :
    ∀ (ops : List Op) (s : Store), k ∉ s.ids → k < s.nextId →
      k ∉ (runOps s ops).ids := by
  intro ops
  induction ops with
  | nil => intro s h1 _; exact h1
  | cons op rest ih =>
    intro s h1 h2
    obtain ⟨h1', h2'⟩ := notMem_applyOp k s op h1 h2
    exact ih _ h1' h2'

theorem createdIds_range (ops : List Op) : ∀ s : Store,
    createdIds s ops = List.range' s.nextId (createdIds s ops).length := by
  induction ops with
  | nil => intro s; rfl
  | cons op rest ih =>
    intro s
    cases op with
    | create n e now =>
      by_cases hn : jsTruthy n = true
      · by_cases he : jsTruthy e = true
        · have ih' := ih (Store.mk
            (s.users ++ [⟨s.nextId, jsGet n, jsGet e, now, none⟩]) (s.nextId + 1))
          simp only [createdIds, createUser_valid s n e false true now hn he]
          show s.nextId :: createdIds
              (Store.mk (s.users ++ [⟨s.nextId, jsGet n, jsGet e, now, none⟩])
                (s.nextId + 1)) rest =
            List.range' s.nextId (s.nextId :: createdIds
              (Store.mk (s.users ++ [⟨s.nextId, jsGet n, jsGet e, now, none⟩])
                (s.nextId + 1)) rest).length
          rw [List.length_cons, List.range'_succ]
          exact congrArg _ ih'
        · simp only [createdIds,
            createUser_invalid s n e false true now (Or.inr (by simpa using he))]
          show createdIds s rest = List.range' s.nextId (createdIds s rest).length
          exact ih s
      · simp only [createdIds,
          createUser_invalid s n e false true now (Or.inl (by simpa using hn))]
        show createdIds s rest = List.range' s.nextId (createdIds s rest).length
        exact ih s
    | update seg n e now =>
      show createdIds (applyOp s (Op.update seg n e now)) rest =
        List.range' s.nextId
          (createdIds (applyOp s (Op.update seg n e now)) rest).length
      have hst : (applyOp s (Op.update seg n e now)).nextId = s.nextId :=
        (updateUser_store s seg n e now).2
      rw [← hst]
      exact ih _
    | del seg =>
      show createdIds (applyOp s (Op.del seg)) rest =
        List.range' s.nextId (createdIds (applyOp s (Op.del seg)) rest).length
      have hst : (applyOp s (Op.del seg)).nextId = s.nextId :=
        (deleteUser_store s seg).2
      rw [← hst]
      exact ih _

/-! ### Claim theorems -/

/-- Claim C1, counterexample: on a successful create with the adapter
connected, the bus publish strictly precedes the HTTP 201 response in the
handler's effect order — the response waits for the awaited publish, so
the notification is not fire-and-forget past the response. -/
theorem claim1_counterexample :
    (createUser Store.init (some "John Doe") (some "john@example.com")
      true true "t0").status = 201 ∧
    responseWaitsForPublish
      (createUser Store.init (some "John Doe") (some "john@example.com")
        true true "t0").effects = true := by
  decide

/-- Claim C1, amended: on every successful create the handler awaits the
bus publish before writing the 201 response whenever the adapter is
connected — the response waits for the publish exactly when the adapter
is connected, and no publish happens otherwise. -/
theorem claim1_amended (s : Store) (n e : Option String) (conn pubOk : Bool)
    (now : String) (hn : jsTruthy n = true) (he : jsTruthy e = true) :
    responseWaitsForPublish (createUser s n e conn pubOk now).effects = conn := by
  rw [createUser_valid s n e conn pubOk now hn he]
  cases conn <;> rfl

/-- Witness for the amended claim C1 at a concrete valid request. -/
theorem claim1_amended_witness :
    responseWaitsForPublish
      (createUser Store.init (some "Jane Roe") (some "jane@example.com")
        true true "t1").effects = true :=
  claim1_amended Store.init (some "Jane Roe") (some "jane@example.com")
    true true "t1" (by decide) (by decide)

/-- Claim C2: starting from the empty store, over any sequence of create,
update and delete requests the successful creates are assigned ids
1, 2, 3, ... in order — the i-th successful create receives id i — and no
id is ever assigned twice, deletions notwithstanding. -/
theorem claim2_ids_sequential (ops : List Op) :
    createdIds Store.init ops = List.range' 1 (createdIds Store.init ops).length ∧
    (createdIds Store.init ops).Nodup := by
  have h := createdIds_range ops Store.init
  refine ⟨h, ?_⟩
  rw [h]
  exact List.nodup_range' _ _

/-- Claim C3, counterexample: the SIGTERM callback with a connected
adapter neither begins by stopping new connections nor ever performs a
stop-accepting action — the HTTP server handle is never closed. -/
theorem claim3_counterexample :
    (sigtermHandler (some ())).head? ≠ some ShutdownAction.stopAccepting ∧
    ShutdownAction.stopAccepting ∉ sigtermHandler (some ()) := by
  decide

/-- Claim C3, amended: on SIGTERM the service closes the adapter exactly
when it is connected and exits with code 0 as its final action; it never
stops accepting new connections first, so in-flight requests are cut off
by the exit rather than guaranteed their responses. -/
theorem claim3_amended (nats : Option Unit) :
    (sigtermHandler nats).getLast? = some (ShutdownAction.exitCode 0) ∧
    ShutdownAction.stopAccepting ∉ sigtermHandler nats ∧
    (ShutdownAction.closeAdapter ∈ sigtermHandler nats ↔ natsConnected nats = true) := by
  cases nats with
  | none => decide
  | some u => cases u; decide

/-- Claim C4: POST /api/users returns 400 with the fixed error body and
an untouched store exactly when name or email is absent or empty;
otherwise it assigns the next id, stamps createdAt, appends the record
to the store and returns it with status 201. -/
theorem claim4_create_contract (s : Store) (n e : Option String)
    (conn pubOk : Bool) (now : String) :
    ((n = none ∨ n = some "" ∨ e = none ∨ e = some "") →
      createUser s n e conn pubOk now =
        { store := s
          status := 400
          body := Body.error "Name and email are required"
          effects := [Effect.respond 400 (Body.error "Name and email are required")] })
    ∧ (∀ ns es : String, n = some ns → ns ≠ "" → e = some es → es ≠ "" →
        createUser s n e conn pubOk now =
          { store := ⟨s.users ++ [⟨s.nextId, ns, es, now, none⟩], s.nextId + 1⟩
            status := 201
            body := Body.user ⟨s.nextId, ns, es, now, none⟩
            effects :=
              (if conn then [Effect.publish s.nextId] else [])
                ++ [Effect.respond 201 (Body.user ⟨s.nextId, ns, es, now, none⟩)] }) := by
  constructor
  · intro h
    apply createUser_invalid
    rcases h with rfl | rfl | rfl | rfl
    · exact Or.inl rfl
    · exact Or.inl (by simp [jsTruthy])
    · exact Or.inr rfl
    · exact Or.inr (by simp [jsTruthy])
  · intro ns es hn hns he hes
    subst hn; subst he
    have h1 : jsTruthy (some ns) = true := by simp [jsTruthy, hns]
    have h2 : jsTruthy (some es) = true := by simp [jsTruthy, hes]
    rw [createUser_valid s _ _ conn pubOk now h1 h2]
    rfl

/-- Witness for claim C4: one invalid and one valid concrete request. -/
theorem claim4_witness :
    createUser Store.init (some "John Doe") none true true "t0" =
      { store := Store.init
        status := 400
        body := Body.error "Name and email are required"
        effects := [Effect.respond 400 (Body.error "Name and email are required")] } ∧
    createUser Store.init (some "John Doe") (some "john@example.com") false true "t0" =
      { store := ⟨[⟨1, "John Doe", "john@example.com", "t0", none⟩], 2⟩
        status := 201
        body := Body.user ⟨1, "John Doe", "john@example.com", "t0", none⟩
        effects :=
          [Effect.respond 201
            (Body.user ⟨1, "John Doe", "john@example.com", "t0", none⟩)] } :=
  ⟨(claim4_create_contract Store.init (some "John Doe") none true true "t0").1
      (Or.inr (Or.inr (Or.inl rfl))),
   (claim4_create_contract Store.init (some "John Doe") (some "john@example.com")
      false true "t0").2
      "John Doe" "john@example.com" rfl (by decide) rfl (by decide)⟩

/-- Claim C5: PUT on an existing id replaces exactly the provided
non-empty fields, keeps a missing field's previous value, stamps
updatedAt, leaves the record's id and createdAt unchanged and touches no
other record or the counter; PUT on an id absent from the store returns
404 with the store unchanged. -/
theorem claim5_update_contract (s : Store) (seg : String) (k : Int)
    (n e : Option String) (now : String) (hp : parseIntJS seg = some k) :
    (∀ u, s.users.find? (idMatches k) = some u →
      ∃ v, (updateUser s seg n e now).status = 200 ∧
        (updateUser s seg n e now).body = Body.user v ∧
        v.id = u.id ∧ v.createdAt = u.createdAt ∧ v.updatedAt = some now ∧
        (n = none → v.name = u.name) ∧
        (e = none → v.email = u.email) ∧
        (∀ str : String, n = some str → str ≠ "" → v.name = str) ∧
        (∀ str : String, e = some str → str ≠ "" → v.email = str) ∧
        (∃ pre post, s.users = pre ++ u :: post ∧
          (updateUser s seg n e now).store.users = pre ++ v :: post) ∧
        (updateUser s seg n e now).store.nextId = s.nextId)
    ∧ (s.users.find? (idMatches k) = none →
        updateUser s seg n e now =
          { store := s, status := 404, body := Body.error "User not found" }) := by
  constructor
  · intro u hf
    obtain ⟨pre, post, hl, -, hup⟩ :=
      updateFirst_eq_some (idMatches k) (applyUpdate n e now) _ u hf
    refine ⟨applyUpdate n e now u, ?_, ?_, rfl, rfl, rfl, ?_, ?_, ?_, ?_,
      ⟨pre, post, hl, ?_⟩, ?_⟩
    · simp [updateUser, hp, hup]
    · simp [updateUser, hp, hup]
    · intro hn; subst hn; rfl
    · intro he; subst he; rfl
    · intro str hn hstr; subst hn
      simp [applyUpdate, jsOr, hstr]
    · intro str he hstr; subst he
      simp [applyUpdate, jsOr, hstr]
    · simp [updateUser, hp, hup]
    · simp [updateUser, hp, hup]
  · intro hf
    simp [updateUser, hp, updateFirst_eq_none _ _ _ hf]

/-- Witness for claim C5: a concrete update of an existing record, and a
concrete update on the empty store. -/
theorem claim5_witness :
    (updateUser ⟨[⟨1, "a", "b", "t0", none⟩], 2⟩ "1" (some "New") none "t1").status = 200 ∧
    updateUser Store.init "1" (some "New") none "t1" =
      { store := Store.init, status := 404, body := Body.error "User not found" } := by
  have h := claim5_update_contract ⟨[⟨1, "a", "b", "t0", none⟩], 2⟩ "1" 1
    (some "New") none "t1" (by decide)
  obtain ⟨v, h200, -⟩ := h.1 ⟨1, "a", "b", "t0", none⟩ (by decide)
  have h' := claim5_update_contract Store.init "1" 1 (some "New") none "t1" (by decide)
  exact ⟨h200, h'.2 rfl⟩

/-- Claim C6, counterexample: "1x" is not a numeric string, yet GET
/api/users/1x on a store holding id 1 returns 200 with that record —
parseInt keeps the leading digit prefix, so a non-numeric segment can
match a stored id instead of behaving like "not found". -/
theorem claim6_counterexample :
    specNumericSegment "1x" = false ∧
    getUser ⟨[⟨1, "a", "b", "t0", none⟩], 2⟩ "1x" =
      (200, Body.user ⟨1, "a", "b", "t0", none⟩) := by
  decide

/-- Claim C6, amended: a segment on which parseInt yields NaN (no leading
integer literal) is treated by GET, PUT and DELETE exactly like a missing
id — 404 with the store unchanged — and likewise any parsed integer that
matches no stored id; but a non-numeric segment with a leading integer
prefix is treated as that integer and can match a stored record. -/
theorem claim6_amended (s : Store) (seg : String) (n e : Option String)
    (now : String) :
    (parseIntJS seg = none →
      getUser s seg = (404, Body.error "User not found") ∧
      updateUser s seg n e now =
        { store := s, status := 404, body := Body.error "User not found" } ∧
      deleteUser s seg =
        { store := s, status := 404, body := Body.error "User not found" })
    ∧ (∀ k : Int, parseIntJS seg = some k →
        (∀ u ∈ s.users, idMatches k u = false) →
        getUser s seg = (404, Body.error "User not found") ∧
        updateUser s seg n e now =
          { store := s, status := 404, body := Body.error "User not found" } ∧
        deleteUser s seg =
          { store := s, status := 404, body := Body.error "User not found" }) := by
  constructor
  · intro hp
    exact ⟨by simp [getUser, hp], by simp [updateUser, hp], by simp [deleteUser, hp]⟩
  · intro k hp hall
    have hf : s.users.find? (idMatches k) = none :=
      List.find?_eq_none.mpr (fun u hu => by simp [hall u hu])
    exact ⟨by simp [getUser, hp, hf],
      by simp [updateUser, hp, updateFirst_eq_none _ _ _ hf],
      by simp [deleteUser, hp, removeFirst_eq_none _ _ hf]⟩

/-- Witness for the amended claim C6: a NaN segment on the empty store
and an unmatched numeric segment on a one-record store. -/
theorem claim6_amended_witness :
    getUser Store.init "abc" = (404, Body.error "User not found") ∧
    deleteUser ⟨[⟨1, "a", "b", "t0", none⟩], 2⟩ "999" =
      { store := ⟨[⟨1, "a", "b", "t0", none⟩], 2⟩, status := 404
        body := Body.error "User not found" } := by
  refine ⟨((claim6_amended Store.init "abc" none none "t").1 (by decide)).1, ?_⟩
  exact ((claim6_amended ⟨[⟨1, "a", "b", "t0", none⟩], 2⟩ "999" none none "t").2
    999 (by decide) (by decide)).2.2

/-- Claim C7: deleting an id present in a well-formed store returns 204
with an empty body, erases exactly that record (no tombstone), makes a
subsequent GET of that id return 404, and no later sequence of requests
ever stores that id again. -/
theorem claim7_delete_contract (s : Store) (seg : String) (k : Nat)
    (hwf : s.wf) (hp : parseIntJS seg = some (k : Int)) (hmem : k ∈ s.ids) :
    (deleteUser s seg).status = 204 ∧
    (deleteUser s seg).body = Body.empty ∧
    (∃ pre u post, u.id = k ∧ s.users = pre ++ u :: post ∧
      (deleteUser s seg).store.users = pre ++ post) ∧
    k ∉ (deleteUser s seg).store.ids ∧
    getUser (deleteUser s seg).store seg = (404, Body.error "User not found") ∧
    ∀ ops, k ∉ (runOps (deleteUser s seg).store ops).ids := by
  obtain ⟨u, hf, hid⟩ := mem_ids_find s k hmem
  obtain ⟨pre, post, hl, -, hrm⟩ := removeFirst_eq_some (idMatches (k : Int)) _ u hf
  have hnody : (List.map (fun u => u.id) pre
      ++ u.id :: List.map (fun u => u.id) post).Nodup := by
    have h0 : (List.map (fun u => u.id) s.users).Nodup := hwf.1
    rw [hl, List.map_append, List.map_cons] at h0
    exact h0
  have hnotin : k ∉ (pre ++ post).map (fun u => u.id) := by
    have := (List.nodup_cons.mp (List.nodup_middle.mp hnody)).1
    rw [List.map_append]
    intro hx
    rw [← hid] at hx
    exact this (by simpa using hx)
  have hfind : (pre ++ post).find? (idMatches (k : Int)) = none := by
    apply List.find?_eq_none.mpr
    intro x hx hmatch
    have hxk : x.id = k := by exact_mod_cast (idMatches_iff _ _).mp hmatch
    exact hnotin (List.mem_map.mpr ⟨x, hx, hxk⟩)
  refine ⟨?_, ?_, ⟨pre, u, post, hid, hl, ?_⟩, ?_, ?_, ?_⟩
  · simp [deleteUser, hp, hrm]
  · simp [deleteUser, hp, hrm]
  · simp [deleteUser, hp, hrm]
  · simp only [deleteUser, hp, hrm]
    exact hnotin
  · simp [getUser, deleteUser, hp, hrm, hfind]
  · intro ops
    simp only [deleteUser, hp, hrm]
    exact notMem_runOps k ops ⟨pre ++ post, s.nextId⟩ hnotin (hwf.2 k hmem)

/-- Witness for claim C7: deleting the only record of a one-record store
and checking the subsequent lookup and a subsequent create. -/
theorem claim7_witness :
    (deleteUser ⟨[⟨1, "a", "b", "t0", none⟩], 2⟩ "1").status = 204 ∧
    (deleteUser ⟨[⟨1, "a", "b", "t0", none⟩], 2⟩ "1").body = Body.empty ∧
    1 ∉ (deleteUser ⟨[⟨1, "a", "b", "t0", none⟩], 2⟩ "1").store.ids ∧
    getUser (deleteUser ⟨[⟨1, "a", "b", "t0", none⟩], 2⟩ "1").store "1" =
      (404, Body.error "User not found") ∧
    1 ∉ (runOps (deleteUser ⟨[⟨1, "a", "b", "t0", none⟩], 2⟩ "1").store
      [Op.create (some "c") (some "d") "t2"]).ids := by
  have h := claim7_delete_contract ⟨[⟨1, "a", "b", "t0", none⟩], 2⟩ "1" 1
    (by decide) (by decide) (by decide)
  exact ⟨h.1, h.2.1, h.2.2.2.1, h.2.2.2.2.1, h.2.2.2.2.2 _⟩

/-- Claim C8: when the startup connect attempt fails, the error is
swallowed (initNATS totally returns the null handle instead of raising),
GET /ready reports natsConnected false, and a valid create still returns
201 with the created record. -/
theorem claim8_connect_failure (err : String) (s : Store) (n e : Option String)
    (pubOk : Bool) (now : String)
    (hn : jsTruthy n = true) (he : jsTruthy e = true) :
    initNATS (Except.error err) = none ∧
    readyHandler (initNATS (Except.error err)) = (200, Body.ready "ready" false) ∧
    (createUser s n e (natsConnected (initNATS (Except.error err)))
      pubOk now).status = 201 ∧
    (createUser s n e (natsConnected (initNATS (Except.error err)))
      pubOk now).body =
      Body.user ⟨s.nextId, jsGet n, jsGet e, now, none⟩ := by
  have hc := createUser_valid s n e
    (natsConnected (initNATS (Except.error err))) pubOk now hn he
  exact ⟨rfl, rfl, by rw [hc], by rw [hc]⟩

/-- Witness for claim C8 with a concrete connection error and request. -/
theorem claim8_witness :
    initNATS (Except.error "boom") = none ∧
    readyHandler (initNATS (Except.error "boom")) = (200, Body.ready "ready" false) ∧
    (createUser Store.init (some "John Doe") (some "john@example.com")
      (natsConnected (initNATS (Except.error "boom"))) true "t0").status = 201 :=
  have h := claim8_connect_failure "boom" Store.init (some "John Doe")
    (some "john@example.com") true "t0" (by decide) (by decide)
  ⟨h.1, h.2.1, h.2.2.1⟩

/-- Claim C9: for a valid create, the HTTP outcome — status 201, the
created record as body, and the store mutation — is identical whether the
adapter is disconnected (publish silently skipped), the publish succeeds,
or the publish fails (error caught and swallowed); a publish effect
occurs exactly when the adapter is connected. -/
theorem claim9_publish_isolation (s : Store) (n e : Option String) (now : String)
    (hn : jsTruthy n = true) (he : jsTruthy e = true)
    (conn pubOk conn' pubOk' : Bool) :
    (createUser s n e conn pubOk now).status = 201 ∧
    (createUser s n e conn pubOk now).body =
      (createUser s n e conn' pubOk' now).body ∧
    (createUser s n e conn pubOk now).store =
      (createUser s n e conn' pubOk' now).store ∧
    ((∃ i, Effect.publish i ∈ (createUser s n e conn pubOk now).effects)
      ↔ conn = true) := by
  rw [createUser_valid s n e conn pubOk now hn he,
    createUser_valid s n e conn' pubOk' now hn he]
  refine ⟨rfl, rfl, rfl, ?_⟩
  cases conn
  · simp
  · exact ⟨fun _ => rfl, fun _ => ⟨s.nextId, by simp⟩⟩

/-- Witness for claim C9 comparing a disconnected create, a successful
publish and a failed publish on the same request. -/
theorem claim9_witness :
    (createUser Store.init (some "John Doe") (some "john@example.com")
      true false "t0").status = 201 ∧
    (createUser Store.init (some "John Doe") (some "john@example.com")
      true false "t0").body =
      (createUser Store.init (some "John Doe") (some "john@example.com")
        false true "t0").body ∧
    (createUser Store.init (some "John Doe") (some "john@example.com")
      true false "t0").store =
      (createUser Store.init (some "John Doe") (some "john@example.com")
        false true "t0").store :=
  have h := claim9_publish_isolation Store.init (some "John Doe")
    (some "john@example.com") "t0" (by decide) (by decide) true false false true
  ⟨h.1, h.2.1, h.2.2.1⟩

/-- Claim C10: a PUT whose body carries name or email as the empty string
behaves exactly as if the field were omitted — the handler results are
equal — and on an existing record the request still succeeds with 200,
retains both previous values and stamps updatedAt, so no stored name or
email is ever set to the empty string through update. -/
theorem claim10_empty_fields (s : Store) (seg : String) (now : String) :
    (∀ e, updateUser s seg (some "") e now = updateUser s seg none e now) ∧
    (∀ n, updateUser s seg n (some "") now = updateUser s seg n none now) ∧
    (∀ k : Int, parseIntJS seg = some k →
      ∀ u, s.users.find? (idMatches k) = some u →
        (updateUser s seg (some "") (some "") now).status = 200 ∧
        (updateUser s seg (some "") (some "") now).body =
          Body.user { u with updatedAt := some now }) := by
  have hfun1 : applyUpdate (some "") = applyUpdate none := by
    funext e' now' u'
    rfl
  have hfun2 : ∀ n' : Option String,
      applyUpdate n' (some "") now = applyUpdate n' none now := by
    intro n'
    funext u'
    cases n' <;> rfl
  refine ⟨?_, ?_, ?_⟩
  · intro e'
    simp only [updateUser, hfun1]
  · intro n'
    simp only [updateUser, hfun2]
  · intro k hp u hf
    obtain ⟨pre, post, hl, -, hup⟩ :=
      updateFirst_eq_some (idMatches k) (applyUpdate (some "") (some "") now) _ u hf
    constructor
    · simp [updateUser, hp, hup]
    · simp only [updateUser, hp, hup]
      show Body.user (applyUpdate (some "") (some "") now u) =
        Body.user { u with updatedAt := some now }
      rfl

/-- Witness for claim C10 on a one-record store. -/
theorem claim10_witness :
    updateUser ⟨[⟨1, "a", "b", "t0", none⟩], 2⟩ "1" (some "") (some "x") "t1" =
      updateUser ⟨[⟨1, "a", "b", "t0", none⟩], 2⟩ "1" none (some "x") "t1" ∧
    (updateUser ⟨[⟨1, "a", "b", "t0", none⟩], 2⟩ "1" (some "") (some "") "t1").status
      = 200 ∧
    (updateUser ⟨[⟨1, "a", "b", "t0", none⟩], 2⟩ "1" (some "") (some "") "t1").body
      = Body.user ⟨1, "a", "b", "t0", some "t1"⟩ := by
  have h := claim10_empty_fields ⟨[⟨1, "a", "b", "t0", none⟩], 2⟩ "1" "t1"
  refine ⟨h.1 (some "x"), ?_, ?_⟩
  · exact (h.2.2 1 (by decide) ⟨1, "a", "b", "t0", none⟩ (by decide)).1
  · exact (h.2.2 1 (by decide) ⟨1, "a", "b", "t0", none⟩ (by decide)).2

end UserService
